import Mathlib

/-!
Shallow embedding of `src/server.js` (a local tile server built on Express).

Conventions of the embedding:
* Machine integers of JavaScript that matter here are small non-negative
  counts and parsed directory names; they are modelled as `Nat` / `Int`.
* The filesystem is an explicit value passed to each handler:
  a map from path strings to file bytes for regular files, and
  `Option`-valued directory listings (`none` models a thrown filesystem
  error, caught by the corresponding `try`/callback in the source).
* Handlers are pure functions from (request, filesystem) to a `Response`
  record holding exactly the observable pieces the source sets:
  status code, the `Content-Type` and `Cache-Control` headers it assigns,
  and the body.
-/

namespace TileServer

/-- Bytes of a file, as a list of byte values. -/
abbrev Bytes := List Nat

/-- A directory entry as observed by `fs.readdirSync` + `fs.statSync`:
its name and whether `statSync(..).isDirectory()` holds. -/
structure DirEnt where
  name : String
  isDir : Bool
  deriving DecidableEq, Repr

/-- An entry of the `structure` object in the `/tiles-info` response
(`src/server.js` lines 130-136): either the successful record with
`x_directories` and `sample_x_dirs`, or the degraded error object. -/
inductive LevelEntry
  | ok (x_directories : Nat) (sample_x_dirs : List String)
  | err (message : String)
  deriving DecidableEq, Repr

/-- Response bodies produced by the server: raw file bytes, a flat JSON
object (modelled as an ordered key/value list, enough for the error
objects the source builds), the root service-info document, the health
document (whose timestamp/uptime fields are wall-clock readings outside
this pure model), and the `/tiles-info` document. -/
inductive Body
  | bytes (b : Bytes)
  | json (fields : List (String × String))
  | rootInfo (available_zoom_levels : List Int)
  | healthJson
  | tilesInfoJson (tiles_directory : String) (available_levels : List Int)
      (struct : List (Int × LevelEntry))
  deriving DecidableEq, Repr

/-- A value produced by the JS property access `types[key]` on the
object literal inside `getContentType`: either an own entry of the
table (a MIME string), or a truthy value inherited from
`Object.prototype` through the prototype chain (for example
`types['constructor']` is the `Object` function and
`types['__proto__']` is `Object.prototype`). -/
inductive MimeVal
  | str (s : String)
  | inherited (key : String)
  deriving DecidableEq, Repr

/-- The observable response: status code, the two headers the tile
handler assigns explicitly (`none` when the handler does not set one;
a `Content-Type` value may be an inherited non-string that the source
hands to `res.setHeader`), and the body. -/
structure Response where
  status : Nat
  contentType : Option MimeVal
  cacheControl : Option String
  body : Body
  deriving DecidableEq, Repr

/-- JS `String.prototype.toLowerCase` restricted to the ASCII range, as
used on format strings (`format.toLowerCase()`, line 65). -/
def lowerStr (s : String) : String := ⟨s.data.map Char.toLower⟩

/-- The fixed format→MIME table of `getContentType` (lines 58-64). -/
def contentTypes : List (String × String) :=
  [("png", "image/png"),
   ("jpg", "image/jpeg"),
   ("jpeg", "image/jpeg"),
   ("webp", "image/webp"),
   ("pbf", "application/x-protobuf")]

/-- The own property names of `Object.prototype` that are entirely
lowercase, and hence the only inherited keys reachable through
`format.toLowerCase()` (names such as `toString` or `hasOwnProperty`
contain capitals and can never equal a lowercased format). Their values
are truthy objects or functions, not MIME strings. -/
def protoLowerKeys : List String := ["constructor", "__proto__"]

/-- `getContentType(format)` (lines 57-66): the JS property access
`types[format.toLowerCase()]` on the object literal. An own key of the
table yields its MIME string; a key inherited from `Object.prototype`
yields that truthy inherited value; any other key yields `undefined`
(here `none`). -/
def getContentType (format : String) : Option MimeVal :=
  match contentTypes.lookup (lowerStr format) with
  | some v => some (.str v)
  | none =>
      if lowerStr format ∈ protoLowerKeys then some (.inherited (lowerStr format))
      else none

/-- `path.join(__dirname, 'tiles', z, x, y + '.' + format)` (line 20),
with `__dirname` taken as the root so paths are relative strings.
`path.join`'s `..`-normalisation is not modelled; no claim involves
traversal segments. -/
def tilePath (z x y format : String) : String :=
  "tiles/" ++ z ++ "/" ++ x ++ "/" ++ y ++ "." ++ format

/-- The tile route handler (lines 16-54) as a function of the route
parameters and the file map. `tiles p = none` models `fs.access`
reporting an error (file absent); `some b` models an existing file whose
bytes `res.sendFile` then transmits. `res.json` sets the JSON
content type; the 500 branch of `sendFile` (an I/O fault on an existing
file) has no representation in a map-based filesystem. -/
def tileHandler (z x y format : String) (tiles : String → Option Bytes) : Response :=
  match tiles (tilePath z x y format) with
  | none =>
      { status := 404
        contentType := some (.str "application/json")
        cacheControl := none
        body := .json [("error", "Tile not found"),
                       ("path", z ++ "/" ++ x ++ "/" ++ y ++ "." ++ format)] }
  | some b =>
      { status := 200
        contentType := getContentType format
        cacheControl := some "public, max-age=3600"
        body := .bytes b }

/-- Characters JS `parseInt` skips as leading whitespace (the common
ASCII ones: tab, LF, VT, FF, CR, space). -/
def jsWhitespace (c : Char) : Bool :=
  c = ' ' ∨ c = '\t' ∨ c = '\n' ∨ c = '\r' ∨ c = Char.ofNat 11 ∨ c = Char.ofNat 12

/-- Value of a digit character under the given radix (10 or 16), `none`
when the character is not a digit of that radix. -/
def digVal (radix : Nat) (c : Char) : Option Nat :=
  if '0' ≤ c ∧ c ≤ '9' then some (c.toNat - 48)
  else if radix = 16 ∧ 'a' ≤ c ∧ c ≤ 'f' then some (c.toNat - 87)
  else if radix = 16 ∧ 'A' ≤ c ∧ c ≤ 'F' then some (c.toNat - 55)
  else none

/-- Accumulate the longest leading run of digits of the radix. -/
def takeDigits (radix : Nat) : List Char → List Nat
  | [] => []
  | c :: rest =>
      match digVal radix c with
      | some d => d :: takeDigits radix rest
      | none => []

/-- JS `parseInt(s)` with no radix argument (line 92): skip leading
whitespace, read an optional sign, detect a `0x`/`0X` hex prefix
(radix 16) and otherwise use radix 10, then take the longest leading
digit run; `NaN` (here `none`) when that run is empty. -/
def jsParseInt (s : String) : Option Int :=
  let cs := s.data.dropWhile jsWhitespace
  let signed : Int × List Char :=
    match cs with
    | '-' :: rest => (-1, rest)
    | '+' :: rest => (1, rest)
    | _ => (1, cs)
  let based : Nat × List Char :=
    match signed.2 with
    | '0' :: 'x' :: rest => (16, rest)
    | '0' :: 'X' :: rest => (16, rest)
    | _ => (10, signed.2)
  let ds := takeDigits based.1 based.2
  if ds.isEmpty then none
  else some (signed.1 * (ds.foldl (fun a d => a * based.1 + d) 0 : Nat))

/-- `getAvailableZoomLevels` (lines 84-100). The argument is the result
of enumerating the tiles root: `none` models any thrown filesystem error
inside the `try` (the `catch` returns `[]`), `some items` the list of
entries with their `isDirectory()` status. The chain filters to
directories, maps `parseInt`, drops `NaN`s, and sorts ascending with the
numeric comparator `(a, b) => a - b`. -/
def getAvailableZoomLevels (root : Option (List DirEnt)) : List Int :=
  match root with
  | none => []
  | some items =>
      List.insertionSort (· ≤ ·)
        (((items.filter (·.isDir)).map (·.name)).filterMap jsParseInt)

/-- Decimal digits of a `Nat`, with the number itself as structural
fuel (a positive `Nat` has fewer digits than its value). -/
def natDigitsAux : Nat → Nat → List Char
  | 0, _ => []
  | _, 0 => []
  | fuel + 1, n + 1 =>
      natDigitsAux fuel ((n + 1) / 10) ++ [Char.ofNat (48 + (n + 1) % 10)]

/-- Decimal rendering of a `Nat`. -/
def natToStr (n : Nat) : String :=
  if n = 0 then "0" else ⟨natDigitsAux n n⟩

/-- JS `Number.prototype.toString` on an integral number
(`level.toString()`, line 122). -/
def intToStr (i : Int) : String :=
  if i < 0 then "-" ++ natToStr i.natAbs else natToStr i.natAbs

/-- The filesystem as seen by the introspection handlers: the listing of
the tiles root and, for each level path string, the listing of
`tiles/<level>` (`none` again modelling a thrown read error). -/
structure TilesDir where
  root : Option (List DirEnt)
  level : String → Option (List DirEnt)

/-- One iteration of the `forEach` of the `/tiles-info` handler
(lines 121-137): read `tiles/<level.toString()>`, keep the entries that
are directories, and build `{x_directories, sample_x_dirs}`; a thrown
read error degrades to the error object. -/
def levelEntry (d : TilesDir) (lvl : Int) : LevelEntry :=
  match d.level (intToStr lvl) with
  | none => .err "Cannot read directory"
  | some items =>
      let xDirs := (items.filter (·.isDir)).map (·.name)
      .ok xDirs.length xDirs

/-- The `/tiles-info` handler (lines 112-140): always `res.json(info)`
with status 200, `available_levels` from the shared enumeration, and one
structure entry per discovered level. -/
def tilesInfo (d : TilesDir) : Response :=
  let levels := getAvailableZoomLevels d.root
  { status := 200
    contentType := some (.str "application/json")
    cacheControl := none
    body := .tilesInfoJson "tiles" levels (levels.map (fun l => (l, levelEntry d l))) }

/-- The root route handler (lines 69-81): static descriptor plus the
live zoom-level list. -/
def rootInfoResp (d : TilesDir) : Response :=
  { status := 200
    contentType := some (.str "application/json")
    cacheControl := none
    body := .rootInfo (getAvailableZoomLevels d.root) }

/-- The `/health` handler (lines 103-109); its timestamp and uptime are
wall-clock readings abstracted by the `healthJson` constructor. -/
def healthResp : Response :=
  { status := 200
    contentType := some (.str "application/json")
    cacheControl := none
    body := .healthJson }

/-- The terminal 404 middleware (lines 152-157). -/
def notFoundResp (path : String) : Response :=
  { status := 404
    contentType := some (.str "application/json")
    cacheControl := none
    body := .json [("error", "Not found"),
                   ("message", "Path " ++ path ++ " not found")] }

/-- Split a character list on a separator, keeping empty pieces
(the shape of splitting a URL path on `/` or a segment on `.`). -/
def splitOnChar (c : Char) : List Char → List (List Char)
  | [] => [[]]
  | a :: rest =>
      let r := splitOnChar c rest
      if a = c then [] :: r
      else
        match r with
        | s :: ss => (a :: s) :: ss
        | [] => [[a]]

/-- Join pieces back with `.` between them (the tail of the last segment
after the first dot becomes the `format` parameter, because each capture
of the Express pattern is a lazy `[^/]+?`). -/
def joinDots (pieces : List (List Char)) : List Char :=
  (pieces.intersperse ['.']).flatten

/-- Matching of the route pattern `/:z/:x/:y.:format` (line 16) under
Express 4 / path-to-regexp 0.1 semantics: the path is `/`-separated into
exactly three non-empty segments (an optional trailing `/` is allowed by
the compiled regex), and the last segment splits at its first `.` into a
non-empty `y` and a non-empty `format` (which may itself contain dots).
Returns the four captured parameters. -/
def matchTile (path : String) : Option (String × String × String × String) :=
  match path.data with
  | '/' :: rest =>
      let segs := splitOnChar '/' rest
      let segs := if segs.getLast? = some [] ∧ segs.length > 1 then segs.dropLast else segs
      match segs with
      | [zs, xs, last] =>
          if zs = [] ∨ xs = [] then none
          else
            match splitOnChar '.' last with
            | ys :: piece :: pieces =>
                let fcs := joinDots (piece :: pieces)
                if ys = [] ∨ fcs = [] then none
                else some (⟨zs⟩, ⟨xs⟩, ⟨ys⟩, ⟨fcs⟩)
            | _ => none
      | _ => none
  | _ => none

/-- `express.static('public')` lookup (line 13): the URL path resolved
under the public root, with the default `index.html` lookup for a
directory request (path ending in `/`). `pub` maps URL paths to the
bytes of the corresponding file under `public/`. -/
def staticLookup (pub : String → Option Bytes) (path : String) : Option Bytes :=
  if path.data.getLast? = some '/' then pub (path ++ "index.html") else pub path

/-- The two filesystem roots the app reads: the public assets root, the
tile files, and the directory structure of the tiles root. -/
structure AppFs where
  pub : String → Option Bytes
  tiles : String → Option Bytes
  dir : TilesDir

/-- The app's pipeline for a GET request, in registration order
(lines 10-157): `cors()` (adds no response), `express.static('public')`,
the tile route, `/`, `/health`, `/tiles-info`, then the terminal 404
middleware. A middleware that produces a response ends the pipeline. -/
def handle (fs : AppFs) (path : String) : Response :=
  match staticLookup fs.pub path with
  | some b =>
      { status := 200, contentType := none, cacheControl := none, body := .bytes b }
  | none =>
      match matchTile path with
      | some (z, x, y, f) => tileHandler z x y f fs.tiles
      | none =>
          if path = "/" then rootInfoResp fs.dir
          else if path = "/health" then healthResp
          else if path = "/tiles-info" then tilesInfo fs.dir
          else notFoundResp path

/-- One GET of the tile route with the filesystem threaded as state:
the handler only reads (`fs.access`, `res.sendFile`), so the state
component it returns is the state it was given. -/
def serveTile (st : String → Option Bytes) (z x y format : String) :
    Response × (String → Option Bytes) :=
  (tileHandler z x y format st, st)

/-- `const PORT = process.env.PORT || 3000` (line 7): the environment
value when it is set and truthy (a non-empty string), the number 3000
otherwise. -/
inductive PortVal
  | str (s : String)
  | num (n : Nat)
  deriving DecidableEq, Repr

/-- The port computation of line 7. -/
def portOf (env : Option String) : PortVal :=
  match env with
  | none => .num 3000
  | some s => if s = "" then .num 3000 else .str s

end TileServer

namespace TileServer

/-! ### Concrete filesystem fixtures used by witnesses and counterexamples -/

/-- A tile file map holding one file whose extension collides with an
inherited property name of `Object.prototype`. -/
def tilesCtorFile : String → Option Bytes := fun p =>
  if p = "tiles/18/1/2.constructor" then some [4, 5] else none

/-- A tile file map holding one PNG tile and one file with an unknown
extension. -/
def tilesEx : String → Option Bytes := fun p =>
  if p = "tiles/18/131072/131072.png" then some [137, 80, 78, 71]
  else if p = "tiles/18/1/2.xyz" then some [1, 2, 3]
  else none

/-- A public assets root that happens to contain a file whose URL path
has the shape of a tile request. -/
def pubEx : String → Option Bytes := fun p =>
  if p = "/18/1/2.png" then some [9] else none

/-- An app state whose public root shadows a tile-shaped path. -/
def appFsShadow : AppFs :=
  { pub := pubEx
    tiles := fun _ => none
    dir := { root := none, level := fun _ => none } }

/-- An app state with an empty public root and the example tiles. -/
def appFsNoPub : AppFs :=
  { pub := fun _ => none
    tiles := tilesEx
    dir := { root := none, level := fun _ => none } }

/-- A tiles directory whose level `18` cannot be read. -/
def dirA : TilesDir :=
  { root := some [⟨"17", true⟩, ⟨"18", true⟩]
    level := fun s => if s = "18" then none else some [⟨"5", true⟩] }

/-- Like `dirA` but level `18` is readable, with one subdirectory and
one plain file. -/
def dirB : TilesDir :=
  { root := some [⟨"17", true⟩, ⟨"18", true⟩]
    level := fun s => if s = "18" then some [⟨"7", true⟩, ⟨"8", false⟩]
             else some [⟨"5", true⟩] }

/-! ### Claim theorems -/

/-- C1: when the resolved tile file exists, the tile handler responds
with status 200, the file's bytes as body, `Cache-Control: public,
max-age=3600`, and the `Content-Type` given by the fixed table
(png→image/png, jpg|jpeg→image/jpeg, webp→image/webp,
pbf→application/x-protobuf). -/
theorem tile_hit_ok (z x y format : String) (tiles : String → Option Bytes)
    (b : Bytes) (h : tiles (tilePath z x y format) = some b) :
    (tileHandler z x y format tiles).status = 200 ∧
    (tileHandler z x y format tiles).body = Body.bytes b ∧
    (tileHandler z x y format tiles).cacheControl = some "public, max-age=3600" ∧
    (tileHandler z x y format tiles).contentType = getContentType format ∧
    getContentType "png" = some (MimeVal.str "image/png") ∧
    getContentType "jpg" = some (MimeVal.str "image/jpeg") ∧
    getContentType "jpeg" = some (MimeVal.str "image/jpeg") ∧
    getContentType "webp" = some (MimeVal.str "image/webp") ∧
    getContentType "pbf" = some (MimeVal.str "application/x-protobuf") := by
  refine ⟨?_, ?_, ?_, ?_, by decide, by decide, by decide, by decide, by decide⟩ <;>
    simp [tileHandler, h]

theorem tile_hit_ok_witness :
    (tileHandler "18" "131072" "131072" "png" tilesEx).status = 200 ∧
    (tileHandler "18" "131072" "131072" "png" tilesEx).body = Body.bytes [137, 80, 78, 71] ∧
    (tileHandler "18" "131072" "131072" "png" tilesEx).cacheControl =
      some "public, max-age=3600" ∧
    (tileHandler "18" "131072" "131072" "png" tilesEx).contentType = getContentType "png" ∧
    getContentType "png" = some (MimeVal.str "image/png") ∧
    getContentType "jpg" = some (MimeVal.str "image/jpeg") ∧
    getContentType "jpeg" = some (MimeVal.str "image/jpeg") ∧
    getContentType "webp" = some (MimeVal.str "image/webp") ∧
    getContentType "pbf" = some (MimeVal.str "application/x-protobuf") :=
  tile_hit_ok "18" "131072" "131072" "png" tilesEx [137, 80, 78, 71] (by decide)

/-- C2: when the resolved tile file does not exist, the tile handler
responds 404 with the JSON body
`{error: "Tile not found", path: "<z>/<x>/<y>.<format>"}`. -/
theorem tile_miss_404 (z x y format : String) (tiles : String → Option Bytes)
    (h : tiles (tilePath z x y format) = none) :
    (tileHandler z x y format tiles).status = 404 ∧
    (tileHandler z x y format tiles).body =
      Body.json [("error", "Tile not found"),
                 ("path", z ++ "/" ++ x ++ "/" ++ y ++ "." ++ format)] := by
  refine ⟨?_, ?_⟩ <;> simp [tileHandler, h]

theorem tile_miss_404_witness :
    (tileHandler "19" "0" "0" "png" tilesEx).status = 404 ∧
    (tileHandler "19" "0" "0" "png" tilesEx).body =
      Body.json [("error", "Tile not found"),
                 ("path", "19" ++ "/" ++ "0" ++ "/" ++ "0" ++ "." ++ "png")] :=
  tile_miss_404 "19" "0" "0" "png" tilesEx (by decide)

/-- C3: zoom-level enumeration returns exactly the parseInt-parseable
directory entries of the root (a permutation of the filter/map/filterMap
chain, hence the same multiset), sorted ascending; a root read failure
yields `[]`; and on `17`, `18`, `abc`, `20` the result is `[17, 18, 20]`. -/
theorem zoom_levels_spec :
    getAvailableZoomLevels none = [] ∧
    (∀ items : List DirEnt,
      (getAvailableZoomLevels (some items)).Sorted (· ≤ ·) ∧
      (getAvailableZoomLevels (some items)).Perm
        (((items.filter (·.isDir)).map (·.name)).filterMap jsParseInt) ∧
      (∀ v : Int, v ∈ getAvailableZoomLevels (some items) ↔
        ∃ e ∈ items, e.isDir = true ∧ jsParseInt e.name = some v)) ∧
    getAvailableZoomLevels
      (some [⟨"17", true⟩, ⟨"18", true⟩, ⟨"abc", true⟩, ⟨"20", true⟩]) = [17, 18, 20] := by
  refine ⟨rfl, ?_, by decide⟩
  intro items
  have hperm := List.perm_insertionSort (fun a b : Int => a ≤ b)
    (((items.filter (·.isDir)).map (·.name)).filterMap jsParseInt)
  refine ⟨List.sorted_insertionSort _ _, hperm, ?_⟩
  intro v
  rw [show getAvailableZoomLevels (some items) =
    List.insertionSort (fun a b : Int => a ≤ b)
      (((items.filter (·.isDir)).map (·.name)).filterMap jsParseInt) from rfl]
  rw [hperm.mem_iff]
  constructor
  · intro hv
    rcases List.mem_filterMap.mp hv with ⟨nm, hn, hp⟩
    rcases List.mem_map.mp hn with ⟨e, he, hname⟩
    rcases List.mem_filter.mp he with ⟨hei, hed⟩
    exact ⟨e, hei, by simpa using hed, by rw [hname]; exact hp⟩
  · rintro ⟨e, hei, hed, hp⟩
    exact List.mem_filterMap.mpr
      ⟨e.name, List.mem_map.mpr ⟨e, List.mem_filter.mpr ⟨hei, by simpa using hed⟩, rfl⟩, hp⟩

end TileServer

namespace TileServer

/-- C4 counterexample: `express.static` is registered before the tile
route, so a tile-shaped path that exists under the public root is served
by the static handler, not the tile handler: on `/18/1/2.png` with that
file present in `public/`, the pipeline answers 200 with the public
file's bytes while the tile handler would answer 404. -/
theorem tile_route_shadowed_cex :
    matchTile "/18/1/2.png" = some ("18", "1", "2", "png") ∧
    handle appFsShadow "/18/1/2.png" ≠ tileHandler "18" "1" "2" "png" appFsShadow.tiles ∧
    (handle appFsShadow "/18/1/2.png").body = Body.bytes [9] ∧
    (tileHandler "18" "1" "2" "png" appFsShadow.tiles).status = 404 := by
  refine ⟨by decide, by decide, by decide, by decide⟩

/-- C4 (amended): a request matching the tile pattern is decided by the
tile handler provided the static middleware (registered first) finds no
file for that path under the public root. -/
theorem tile_route_amended (fs : AppFs) (path z x y f : String)
    (hm : matchTile path = some (z, x, y, f))
    (hs : staticLookup fs.pub path = none) :
    handle fs path = tileHandler z x y f fs.tiles := by
  unfold handle
  rw [hs, hm]

theorem tile_route_amended_witness :
    handle appFsNoPub "/18/131072/131072.png" =
      tileHandler "18" "131072" "131072" "png" appFsNoPub.tiles :=
  tile_route_amended appFsNoPub "/18/131072/131072.png" "18" "131072" "131072" "png"
    (by decide) (by decide)

/-- C5 counterexample: with `PORT` set to the non-numeric, non-empty
string `"abc"`, `process.env.PORT || 3000` keeps `"abc"` (a non-empty
string is truthy) instead of defaulting to 3000. -/
theorem port_invalid_cex :
    portOf (some "abc") = PortVal.str "abc" ∧
    portOf (some "abc") ≠ PortVal.num 3000 := by
  refine ⟨by decide, by decide⟩

/-- C5 (amended): the listening port is the value of `PORT` whenever it
is set and non-empty (taken verbatim, numeric or not), and defaults to
3000 exactly when `PORT` is unset or the empty string. -/
theorem port_amended (s : String) (h : s ≠ "") :
    portOf none = PortVal.num 3000 ∧
    portOf (some "") = PortVal.num 3000 ∧
    portOf (some s) = PortVal.str s := by
  refine ⟨rfl, by decide, ?_⟩
  simp [portOf, h]

theorem port_amended_witness :
    portOf none = PortVal.num 3000 ∧
    portOf (some "") = PortVal.num 3000 ∧
    portOf (some "8080") = PortVal.str "8080" :=
  port_amended "8080" (by decide)

/-- C6 counterexample: the format `constructor` is not in the fixed
format→MIME table, yet for an existing file `2.constructor` the handler
does not leave `Content-Type` unset: `types['constructor']` walks the
prototype chain of the object literal and returns the inherited
(truthy) `Object` function, so line 39's `if (contentType)` passes and
line 40 hands that value to `res.setHeader('Content-Type', ...)`. -/
theorem tile_unknown_format_cex :
    contentTypes.lookup (lowerStr "constructor") = none ∧
    tilesCtorFile (tilePath "18" "1" "2" "constructor") = some [4, 5] ∧
    (tileHandler "18" "1" "2" "constructor" tilesCtorFile).contentType =
      some (MimeVal.inherited "constructor") ∧
    (tileHandler "18" "1" "2" "constructor" tilesCtorFile).contentType ≠ none := by
  refine ⟨by decide, by decide, by decide, by decide⟩

/-- C6 (amended): for an existing file whose lowercased format is
neither in the table nor one of the (all-lowercase) inherited property
names of `Object.prototype`, the tile handler answers 200 with the
file's bytes and the cache header, and sets no `Content-Type` of its
own. -/
theorem tile_unknown_format_ok (z x y format : String) (tiles : String → Option Bytes)
    (b : Bytes)
    (hf : contentTypes.lookup (lowerStr format) = none)
    (hp : lowerStr format ∉ protoLowerKeys)
    (h : tiles (tilePath z x y format) = some b) :
    (tileHandler z x y format tiles).status = 200 ∧
    (tileHandler z x y format tiles).contentType = none ∧
    (tileHandler z x y format tiles).body = Body.bytes b ∧
    (tileHandler z x y format tiles).cacheControl = some "public, max-age=3600" := by
  refine ⟨?_, ?_, ?_, ?_⟩ <;> simp [tileHandler, getContentType, h, hf, hp]

theorem tile_unknown_format_ok_witness :
    (tileHandler "18" "1" "2" "xyz" tilesEx).status = 200 ∧
    (tileHandler "18" "1" "2" "xyz" tilesEx).contentType = none ∧
    (tileHandler "18" "1" "2" "xyz" tilesEx).body = Body.bytes [1, 2, 3] ∧
    (tileHandler "18" "1" "2" "xyz" tilesEx).cacheControl = some "public, max-age=3600" :=
  tile_unknown_format_ok "18" "1" "2" "xyz" tilesEx [1, 2, 3]
    (by decide) (by decide) (by decide)

end TileServer

namespace TileServer

/-- C7: `/tiles-info` always answers 200; a readable level's structure
entry is `{x_directories, sample_x_dirs}` built from its subdirectories;
an unreadable level's entry degrades to `{error: "Cannot read
directory"}`; and changing one level's readability leaves the discovered
levels and every other level's entry unchanged. -/
theorem tiles_info_robust (d d' : TilesDir) (k : String)
    (hroot : d.root = d'.root)
    (hoth : ∀ s, s ≠ k → d.level s = d'.level s) :
    (tilesInfo d).status = 200 ∧
    (∀ lvl : Int, ∀ items : List DirEnt, d.level (intToStr lvl) = some items →
        levelEntry d lvl =
          LevelEntry.ok (((items.filter (·.isDir)).map (·.name)).length)
            ((items.filter (·.isDir)).map (·.name))) ∧
    (∀ lvl : Int, d.level (intToStr lvl) = none →
        levelEntry d lvl = LevelEntry.err "Cannot read directory") ∧
    getAvailableZoomLevels d.root = getAvailableZoomLevels d'.root ∧
    (∀ lvl : Int, intToStr lvl ≠ k → levelEntry d lvl = levelEntry d' lvl) := by
  refine ⟨rfl, ?_, ?_, by rw [hroot], ?_⟩
  · intro lvl items h
    simp [levelEntry, h]
  · intro lvl h
    simp [levelEntry, h]
  · intro lvl h
    unfold levelEntry
    rw [hoth _ h]

theorem tiles_info_robust_witness :
    (tilesInfo dirA).status = 200 ∧
    (∀ lvl : Int, ∀ items : List DirEnt, dirA.level (intToStr lvl) = some items →
        levelEntry dirA lvl =
          LevelEntry.ok (((items.filter (·.isDir)).map (·.name)).length)
            ((items.filter (·.isDir)).map (·.name))) ∧
    (∀ lvl : Int, dirA.level (intToStr lvl) = none →
        levelEntry dirA lvl = LevelEntry.err "Cannot read directory") ∧
    getAvailableZoomLevels dirA.root = getAvailableZoomLevels dirB.root ∧
    (∀ lvl : Int, intToStr lvl ≠ "18" → levelEntry dirA lvl = levelEntry dirB lvl) :=
  tiles_info_robust dirA dirB "18" rfl (fun s hs => by simp [dirA, dirB, hs])

/-- C8: the tile route only reads: serving the same request twice
against the same filesystem state returns the same response (same
status, headers and byte-identical body) and leaves the state intact. -/
theorem tile_get_idempotent (st : String → Option Bytes) (z x y format : String)
    (b : Bytes) (h : st (tilePath z x y format) = some b) :
    (serveTile st z x y format).1 =
      (serveTile (serveTile st z x y format).2 z x y format).1 ∧
    (serveTile st z x y format).1.body = Body.bytes b ∧
    (serveTile st z x y format).1.status = 200 ∧
    (serveTile st z x y format).2 = st := by
  refine ⟨rfl, ?_, ?_, rfl⟩ <;> simp [serveTile, tileHandler, h]

theorem tile_get_idempotent_witness :
    (serveTile tilesEx "18" "131072" "131072" "png").1 =
      (serveTile (serveTile tilesEx "18" "131072" "131072" "png").2
        "18" "131072" "131072" "png").1 ∧
    (serveTile tilesEx "18" "131072" "131072" "png").1.body =
      Body.bytes [137, 80, 78, 71] ∧
    (serveTile tilesEx "18" "131072" "131072" "png").1.status = 200 ∧
    (serveTile tilesEx "18" "131072" "131072" "png").2 = tilesEx :=
  tile_get_idempotent tilesEx "18" "131072" "131072" "png" [137, 80, 78, 71] (by decide)

/-- C9: content-type resolution only sees the lowercased format, so two
formats with the same lowercasing (such as `PNG` and `png`) resolve to
the same `Content-Type`. -/
theorem contentType_case_insensitive (f g : String) (h : lowerStr f = lowerStr g) :
    getContentType f = getContentType g := by
  unfold getContentType
  rw [h]

theorem contentType_case_insensitive_witness :
    (getContentType "PNG" = getContentType "png" ∧
      getContentType "PNG" = some (MimeVal.str "image/png")) ∧
    (getContentType "Jpeg" = getContentType "jpeg" ∧
      getContentType "Jpeg" = some (MimeVal.str "image/jpeg")) :=
  ⟨⟨contentType_case_insensitive "PNG" "png" (by decide), by decide⟩,
   ⟨contentType_case_insensitive "Jpeg" "jpeg" (by decide), by decide⟩⟩

/-- C10: in a successful `/tiles-info` structure entry, `x_directories`
is exactly the length of `sample_x_dirs`, and `sample_x_dirs` contains
the name of every subdirectory of the level — no cap is applied. -/
theorem sample_not_capped (d : TilesDir) (lvl : Int) (n : Nat) (xs : List String)
    (h : levelEntry d lvl = LevelEntry.ok n xs) :
    n = xs.length ∧
    ∀ items : List DirEnt, d.level (intToStr lvl) = some items →
      ∀ e ∈ items, e.isDir = true → e.name ∈ xs := by
  unfold levelEntry at h
  cases hl : d.level (intToStr lvl) with
  | none => rw [hl] at h; exact absurd h (by simp)
  | some items₀ =>
      rw [hl] at h
      simp only [LevelEntry.ok.injEq] at h
      obtain ⟨hn, hxs⟩ := h
      constructor
      · rw [← hn, ← hxs]
      · intro items hi e he hd
        injection hi with hi
        subst hi
        rw [← hxs]
        exact List.mem_map.mpr ⟨e, List.mem_filter.mpr ⟨he, by simpa using hd⟩, rfl⟩

theorem sample_not_capped_witness :
    (1 : Nat) = (["7"] : List String).length ∧
    ∀ items : List DirEnt, dirB.level (intToStr 18) = some items →
      ∀ e ∈ items, e.isDir = true → e.name ∈ (["7"] : List String) :=
  sample_not_capped dirB 18 1 ["7"] (by decide)

end TileServer
